import Mathlib

/-!
Shallow embedding of the RDZ HMI Control integration
(`custom_components/rdz_hmi_control`): the Modbus register decoders and
encoders (`modbus_client.py`), the polling / sync engine
(`coordinator.py`), and the zone-topology projections used by the
climate and binary-sensor entities (`climate.py`, `binary_sensor.py`).

Python dictionaries built by `for`-loop / comprehension insertion are
modelled as association lists `List (ℕ × α)` in insertion order, with
`dict.get k` as `List.lookup k` and `dict.get k default` as
`(List.lookup k _).getD default`.  Register values are natural numbers
(the device delivers unsigned 16-bit registers); the fixed-point scale
arithmetic (`value / 10.0`, `int(value * 10)`) is modelled over exact
rationals, which agrees with the double-precision arithmetic of the
source on the whole 16-bit register domain.
-/

namespace RDZ

/-! Section: Constants (`const.py`) -/

def REGISTER_TEMP_START : ℕ := 2700
def REGISTER_TEMP_COUNT : ℕ := 64
def REGISTER_WINTER_SETPOINT_START : ℕ := 300
def REGISTER_WINTER_SETPOINT_COUNT : ℕ := 64
def REGISTER_SUMMER_SETPOINT_START : ℕ := 364
def REGISTER_SUMMER_SETPOINT_COUNT : ℕ := 64
def COIL_SEASON : ℕ := 2
def REGISTER_ACTIVITY_START : ℕ := 2892
def REGISTER_ACTIVITY_COUNT : ℕ := 4
def REGISTER_ZONE_MODE_START : ℕ := 5301
def REGISTER_ZONE_MODE_COUNT : ℕ := 64
def COIL_SYSTEM_ACTIVATION_START : ℕ := 100
def COIL_SYSTEM_ACTIVATION_COUNT : ℕ := 8
def REGISTER_PUMP_ACTIVE : ℕ := 7615

def ZONE_MODE_OFF : ℕ := 0
def ZONE_MODE_MAN : ℕ := 1
def ZONE_MODE_PGM : ℕ := 2
def ZONE_MODE_PGM_MAN : ℕ := 3

/-- Constant `TEMP_SCALE_FACTOR = 10.0`, as an exact rational. -/
def TEMP_SCALE_FACTOR : ℚ := 10

/-! Section: Scalar decode / encode (`modbus_client.py`) -/

/-- Python `int()` applied to a numeric value: truncation toward zero. -/
def pyInt (q : ℚ) : ℤ := if 0 ≤ q then ⌊q⌋ else -⌊-q⌋

/-- Decoding of one register of a scalar category:
`value / TEMP_SCALE_FACTOR` (`modbus_client.py`, e.g. line 208). -/
def decodeRegister (value : ℕ) : ℚ := (value : ℚ) / TEMP_SCALE_FACTOR

/-- Encoding done by `write_winter_setpoint` / `write_summer_setpoint`:
`value = int(temperature * TEMP_SCALE_FACTOR)`. -/
def encodeTemp (temperature : ℚ) : ℤ := pyInt (temperature * TEMP_SCALE_FACTOR)

/-- Decode step of `read_temperatures`, with the explicit index of
`enumerate(registers)` carried as the first argument:
only non-zero register values produce an entry. -/
def decodeTemperaturesFrom (i : ℕ) : List ℕ → List (ℕ × ℚ)
  | [] => []
  | value :: rest =>
    if value ≠ 0 then
      (i, decodeRegister value) :: decodeTemperaturesFrom (i + 1) rest
    else
      decodeTemperaturesFrom (i + 1) rest

/-- Decode of `read_temperatures`: an entry `i: value / 10.0` for each non-zero value. -/
def decodeTemperatures (registers : List ℕ) : List (ℕ × ℚ) :=
  decodeTemperaturesFrom 0 registers

/-- Decode step of the setpoint dict comprehension
`{i: value / TEMP_SCALE_FACTOR for i, value in enumerate(registers)}`,
with the `enumerate` index carried explicitly. -/
def decodeScaledFrom (i : ℕ) : List ℕ → List (ℕ × ℚ)
  | [] => []
  | value :: rest => (i, decodeRegister value) :: decodeScaledFrom (i + 1) rest

/-- Decode shared by `read_winter_setpoints` and `read_summer_setpoints`
(identical comprehensions, only the start address differs): one entry
per register, zero included. -/
def decodeSetpoints (registers : List ℕ) : List (ℕ × ℚ) :=
  decodeScaledFrom 0 registers

/-! Section: Bitmask decode (`modbus_client.py`) -/

/-- Inner loop of the bitmask readers: `for bit in range(16):
result[reg_idx * 16 + bit] = bool(reg_value & (1 << bit))`. -/
def bitmaskBits (regIdx regValue : ℕ) : List (ℕ × Bool) :=
  (List.range 16).map fun bit => (regIdx * 16 + bit, regValue.testBit bit)

/-- Outer loop of `_read_zone_bitmask` / `read_zone_activity`, with the
`enumerate` register index carried explicitly. -/
def decodeZoneBitmaskFrom (regIdx : ℕ) : List ℕ → List (ℕ × Bool)
  | [] => []
  | regValue :: rest => bitmaskBits regIdx regValue ++ decodeZoneBitmaskFrom (regIdx + 1) rest

/-- Decode of `_read_zone_bitmask` (also `read_zone_activity`):
zone_id = reg_idx * 16 + bit, 0-based. -/
def decodeZoneBitmask (registers : List ℕ) : List (ℕ × Bool) :=
  decodeZoneBitmaskFrom 0 registers

/-- Decode of `read_pump_active`:
`{i + 1: bool(bitmask & (1 << i)) for i in range(8)}`. -/
def decodePumpActive (bitmask : ℕ) : List (ℕ × Bool) :=
  (List.range 8).map fun i => (i + 1, bitmask.testBit i)

/-- Decode of `read_system_activation`:
`{i + 1: coils[i] for i in range(COIL_SYSTEM_ACTIVATION_COUNT)}`. -/
def decodeSystemActivation (coils : List Bool) : List (ℕ × Bool) :=
  (List.range COIL_SYSTEM_ACTIVATION_COUNT).map fun i => (i + 1, coils.getD i false)

/-! Section: Association-list lookup toolkit -/

theorem lookup_append {α β : Type} [BEq α] (k : α) (l₁ l₂ : List (α × β)) :
    (l₁ ++ l₂).lookup k = ((l₁.lookup k).or (l₂.lookup k)) := by
  induction l₁ with
  | nil => simp [List.lookup]
  | cons p t ih =>
    obtain ⟨a, b⟩ := p
    cases hkc : (k == a) <;>
      simp [List.lookup, hkc, List.append_eq, ih]

theorem lookup_range_map {β : Type} (g : ℕ → β) :
    ∀ (n base b : ℕ), b < n →
      (((List.range n).map fun bit => (base + bit, g bit)).lookup (base + b)) = some (g b) := by
  intro n
  induction n with
  | zero => omega
  | succ m ih =>
    intro base b hb
    rw [List.range_succ, List.map_append, lookup_append]
    rcases Nat.lt_or_ge b m with h | h
    · rw [ih base b h]
      rfl
    · have hbm : b = m := by omega
      subst hbm
      have hnone :
          (((List.range b).map fun bit => (base + bit, g bit)).lookup (base + b)) = none := by
        rw [List.lookup_eq_none_iff]
        intro p hp
        simp only [List.mem_map, List.mem_range] at hp
        obtain ⟨bit, hbit, hpe⟩ := hp
        subst hpe
        simp only [bne_iff_ne, ne_eq]
        omega
      rw [hnone]
      simp [List.lookup]

theorem lookup_range_map_none {β : Type} (g : ℕ → β) (n base k : ℕ) (hk : n ≤ k) :
    (((List.range n).map fun bit => (base + bit, g bit)).lookup (base + k)) = none := by
  rw [List.lookup_eq_none_iff]
  intro p hp
  simp only [List.mem_map, List.mem_range] at hp
  obtain ⟨bit, hbit, hpe⟩ := hp
  subst hpe
  simp only [bne_iff_ne, ne_eq]
  omega

/-! Section: Decoder characterizations -/

theorem decodeScaledFrom_keys (l : List ℕ) :
    ∀ n : ℕ, (decodeScaledFrom n l).map Prod.fst = List.range' n l.length := by
  induction l with
  | nil => intro n; rfl
  | cons v rest ih =>
    intro n
    simp only [decodeScaledFrom, List.map_cons, List.length_cons, List.range'_succ]
    rw [ih]

theorem decodeScaledFrom_lookup (l : List ℕ) :
    ∀ (n i : ℕ) (h : i < l.length),
      (decodeScaledFrom n l).lookup (n + i) = some (decodeRegister l[i]) := by
  induction l with
  | nil => intro n i h; simp at h
  | cons v rest ih =>
    intro n i h
    match i with
    | 0 => simp [decodeScaledFrom, List.lookup]
    | j + 1 =>
      have hne : ((n + (j + 1) == n) : Bool) = false := by
        simp only [beq_eq_false_iff_ne, ne_eq]
        omega
      simp only [decodeScaledFrom, List.lookup, hne]
      have harith : n + (j + 1) = (n + 1) + j := by omega
      rw [harith]
      exact ih (n + 1) j (by simpa using h)

theorem decodeTemperaturesFrom_lookup_lt (l : List ℕ) :
    ∀ (n k : ℕ), k < n → (decodeTemperaturesFrom n l).lookup k = none := by
  induction l with
  | nil => intro n k _; rfl
  | cons v rest ih =>
    intro n k hk
    have hne : ((k == n) : Bool) = false := by
      simp only [beq_eq_false_iff_ne, ne_eq]
      omega
    simp only [decodeTemperaturesFrom]
    by_cases hv : v ≠ 0
    · rw [if_pos hv]
      simp only [List.lookup, hne]
      exact ih (n + 1) k (by omega)
    · rw [if_neg hv]
      exact ih (n + 1) k (by omega)

theorem decodeTemperaturesFrom_lookup (l : List ℕ) :
    ∀ (n i : ℕ) (h : i < l.length),
      (decodeTemperaturesFrom n l).lookup (n + i) =
        if l[i] = 0 then none else some (decodeRegister l[i]) := by
  induction l with
  | nil => intro n i h; simp at h
  | cons v rest ih =>
    intro n i h
    match i with
    | 0 =>
      simp only [decodeTemperaturesFrom, List.getElem_cons_zero, Nat.add_zero]
      by_cases hv : v ≠ 0
      · rw [if_pos hv, if_neg hv]
        simp [List.lookup]
      · have hv0 : v = 0 := by omega
        rw [if_neg hv, if_pos hv0]
        exact decodeTemperaturesFrom_lookup_lt rest (n + 1) n (by omega)
    | j + 1 =>
      have hne : ((n + (j + 1) == n) : Bool) = false := by
        simp only [beq_eq_false_iff_ne, ne_eq]
        omega
      have harith : n + (j + 1) = (n + 1) + j := by omega
      have hrest := ih (n + 1) j (by simpa using h)
      simp only [decodeTemperaturesFrom, List.getElem_cons_succ]
      by_cases hv : v ≠ 0
      · rw [if_pos hv]
        simp only [List.lookup, hne]
        rw [harith, hrest]
      · rw [if_neg hv]
        rw [harith, hrest]

theorem bitmaskBits_lookup (regIdx regValue b : ℕ) (hb : b < 16) :
    (bitmaskBits regIdx regValue).lookup (regIdx * 16 + b) = some (regValue.testBit b) :=
  lookup_range_map (fun bit => regValue.testBit bit) 16 (regIdx * 16) b hb

theorem bitmaskBits_keys (regIdx regValue : ℕ) :
    (bitmaskBits regIdx regValue).map Prod.fst = List.range' (regIdx * 16) 16 := by
  simp only [bitmaskBits, List.map_map, List.range'_eq_map_range]
  rfl

theorem decodeZoneBitmaskFrom_keys (l : List ℕ) :
    ∀ n : ℕ, (decodeZoneBitmaskFrom n l).map Prod.fst = List.range' (n * 16) (l.length * 16) := by
  induction l with
  | nil => intro n; rfl
  | cons v rest ih =>
    intro n
    simp only [decodeZoneBitmaskFrom, List.map_append, bitmaskBits_keys, ih,
      List.length_cons]
    have h1 : (n + 1) * 16 = n * 16 + 1 * 16 := by ring
    have h2 : (rest.length + 1) * 16 = rest.length * 16 + 16 := by ring
    rw [h1, List.range'_append, h2]

theorem decodeZoneBitmaskFrom_lookup (l : List ℕ) :
    ∀ (n N b : ℕ) (h : N < l.length), b < 16 →
      (decodeZoneBitmaskFrom n l).lookup ((n + N) * 16 + b) = some (l[N].testBit b) := by
  induction l with
  | nil => intro n N b h; simp at h
  | cons v rest ih =>
    intro n N b h hb
    match N with
    | 0 =>
      simp only [decodeZoneBitmaskFrom, lookup_append, Nat.add_zero,
        bitmaskBits_lookup n v b hb, Option.or_some, List.getElem_cons_zero]
    | j + 1 =>
      have hsplit : (n + (j + 1)) * 16 + b = n * 16 + ((j + 1) * 16 + b) := by ring
      have hnone : (bitmaskBits n v).lookup ((n + (j + 1)) * 16 + b) = none := by
        rw [hsplit]
        exact lookup_range_map_none (fun bit => v.testBit bit) 16 (n * 16)
          ((j + 1) * 16 + b) (by omega)
      have harith : (n + (j + 1)) * 16 + b = ((n + 1) + j) * 16 + b := by ring
      simp only [decodeZoneBitmaskFrom, lookup_append, hnone, Option.none_or]
      rw [harith]
      simpa using ih (n + 1) j b (by simpa using h) hb

theorem decodeZoneBitmask_keys (registers : List ℕ) :
    (decodeZoneBitmask registers).map Prod.fst = List.range (16 * registers.length) := by
  rw [decodeZoneBitmask, decodeZoneBitmaskFrom_keys, List.range_eq_range']
  norm_num [Nat.mul_comm]

theorem decodeZoneBitmask_lookup (registers : List ℕ) (N b : ℕ)
    (h : N < registers.length) (hb : b < 16) :
    (decodeZoneBitmask registers).lookup (N * 16 + b) = some (registers[N].testBit b) := by
  have := decodeZoneBitmaskFrom_lookup registers 0 N b h hb
  simpa using this

theorem decodePumpActive_lookup (bitmask b : ℕ) (hb : b < 8) :
    (decodePumpActive bitmask).lookup (b + 1) = some (bitmask.testBit b) := by
  have hrw : decodePumpActive bitmask =
      (List.range 8).map fun i => (1 + i, bitmask.testBit i) := by
    simp only [decodePumpActive, Nat.add_comm]
  rw [hrw, Nat.add_comm b 1]
  exact lookup_range_map (fun i => bitmask.testBit i) 8 1 b hb

theorem decodeSystemActivation_lookup (coils : List Bool) (i : ℕ) (hi : i < 8) :
    (decodeSystemActivation coils).lookup (i + 1) = some (coils.getD i false) := by
  have hrw : decodeSystemActivation coils =
      (List.range 8).map fun j => (1 + j, coils.getD j false) := by
    simp only [decodeSystemActivation, COIL_SYSTEM_ACTIVATION_COUNT, Nat.add_comm]
  rw [hrw, Nat.add_comm i 1]
  exact lookup_range_map (fun j => coils.getD j false) 8 1 i hi

/-! Section: Zone configuration (`const.py` zone config keys, config entry data) -/

/-- Values of `CONF_ZONE_TYPE`: `real` / `virtual` / `unconfigured`. -/
inductive ZoneType where
  | real
  | virtual
  | unconfigured
deriving DecidableEq, Repr

/-- One entry of the `CONF_ZONES` table: `{type, linked_virtual_zone}`
(the name is display-only and not modelled). -/
structure ZoneCfg where
  zoneType : ZoneType
  linkedVirtualZone : Option ℕ
deriving DecidableEq, Repr

/-- The configured zone table, keyed by zone id
(the source keys by the stringified id and converts back with `int`). -/
def ZonesConfig : Type := List (ℕ × ZoneCfg)

/-- Result of `read_time_settings`: day, month, year, hour and minute. -/
structure TimeSettings where
  day : ℕ
  month : ℕ
  year : ℕ
  hour : ℕ
  minute : ℕ
deriving DecidableEq, Repr

/-! Section: The snapshot published by the coordinator (`coordinator.py`,
`_async_update_data` return value).

The three mandatory categories are plain dictionaries — the cycle has
already checked them for `None`.  Every other category is stored exactly
as its read returned it, so a failed read leaves `none` in the published
snapshot (`read_*` never raises; it returns `None` on failure). -/

structure Snapshot where
  temperatures : List (ℕ × ℚ)
  winterSetpoints : List (ℕ × ℚ)
  summerSetpoints : List (ℕ × ℚ)
  season : Option Bool
  zoneActivity : Option (List (ℕ × Bool))
  humidity : Option (List (ℕ × ℚ))
  dehumidificationSetpoints : Option (List (ℕ × ℕ))
  dewPoints : Option (List (ℕ × ℚ))
  zoneModes : Option (List (ℕ × ℕ))
  outsideTemp : Option ℚ
  timeSettings : Option TimeSettings
  systemActivation : Option (List (ℕ × Bool))
  deliveryWaterTemps : Option (List (ℕ × ℚ))
  calculatedWaterTemps : Option (List (ℕ × ℚ))
  pumpActive : Option (List (ℕ × Bool))
  humidityRequest : Option (List (ℕ × Bool))
  ventilationRequest : Option (List (ℕ × Bool))
  renewalRequest : Option (List (ℕ × Bool))
  integrationRequest : Option (List (ℕ × Bool))
  dehumidificationPump : Option (List (ℕ × Bool))
deriving DecidableEq

/-- The results of the sequential read chain of one poll cycle
(`_async_update_data` lines 83–106): each client read returns its
decoded value or `None` on any connection / protocol error. -/
structure Readings where
  temperatures : Option (List (ℕ × ℚ))
  winterSetpoints : Option (List (ℕ × ℚ))
  summerSetpoints : Option (List (ℕ × ℚ))
  season : Option Bool
  zoneActivity : Option (List (ℕ × Bool))
  humidity : Option (List (ℕ × ℚ))
  dehumidificationSetpoints : Option (List (ℕ × ℕ))
  dewPoints : Option (List (ℕ × ℚ))
  zoneModes : Option (List (ℕ × ℕ))
  outsideTemp : Option ℚ
  timeSettings : Option TimeSettings
  systemActivation : Option (List (ℕ × Bool))
  deliveryWaterTemps : Option (List (ℕ × ℚ))
  calculatedWaterTemps : Option (List (ℕ × ℚ))
  pumpActive : Option (List (ℕ × Bool))
  humidityRequest : Option (List (ℕ × Bool))
  ventilationRequest : Option (List (ℕ × Bool))
  renewalRequest : Option (List (ℕ × Bool))
  integrationRequest : Option (List (ℕ × Bool))
  dehumidificationPump : Option (List (ℕ × Bool))
deriving DecidableEq

/-- The snapshot dictionary literal of `_async_update_data`
(lines 117–140): mandatory categories from the checked reads, all other
categories copied verbatim from the reads (possibly `None`).  There is
no calculated-setpoints key. -/
def buildSnapshot (temps ws ss : List (ℕ × ℚ)) (r : Readings) : Snapshot where
  temperatures := temps
  winterSetpoints := ws
  summerSetpoints := ss
  season := r.season
  zoneActivity := r.zoneActivity
  humidity := r.humidity
  dehumidificationSetpoints := r.dehumidificationSetpoints
  dewPoints := r.dewPoints
  zoneModes := r.zoneModes
  outsideTemp := r.outsideTemp
  timeSettings := r.timeSettings
  systemActivation := r.systemActivation
  deliveryWaterTemps := r.deliveryWaterTemps
  calculatedWaterTemps := r.calculatedWaterTemps
  pumpActive := r.pumpActive
  humidityRequest := r.humidityRequest
  ventilationRequest := r.ventilationRequest
  renewalRequest := r.renewalRequest
  integrationRequest := r.integrationRequest
  dehumidificationPump := r.dehumidificationPump

/-! Section: Setpoint writes and the sync engine (`coordinator.py`) -/

/-- A single-register Modbus write issued by the sync engine. -/
structure RegisterWrite where
  address : ℕ
  value : ℤ
deriving DecidableEq, Repr

/-- Model of `write_winter_setpoint`: register `REGISTER_WINTER_SETPOINT_START +
zone_id`, value `int(temperature * TEMP_SCALE_FACTOR)`. -/
def writeWinterSetpoint (zoneId : ℕ) (temperature : ℚ) : RegisterWrite :=
  ⟨REGISTER_WINTER_SETPOINT_START + zoneId, encodeTemp temperature⟩

/-- Model of `write_summer_setpoint`: register `REGISTER_SUMMER_SETPOINT_START +
zone_id`, value `int(temperature * TEMP_SCALE_FACTOR)`. -/
def writeSummerSetpoint (zoneId : ℕ) (temperature : ℚ) : RegisterWrite :=
  ⟨REGISTER_SUMMER_SETPOINT_START + zoneId, encodeTemp temperature⟩

/-- One iteration of the `_sync_linked_setpoints` loop for a single
configured zone.  `succ` is the device's response to a write; the source
binds it (`success = await ...`) and only logs on failure, so it does
not influence the writes issued or the state.  The returned list is the
sequence of setpoint writes issued for this zone. -/
def syncZone (succ : ℕ → ℤ → Bool) (prevW prevS curW curS : List (ℕ × ℚ))
    (realZoneId : ℕ) (zoneData : ZoneCfg) : List RegisterWrite :=
  if zoneData.zoneType ≠ ZoneType.real then []
  else
    match zoneData.linkedVirtualZone with
    | none => []
    | some virtualZoneId =>
      let winterWrites :=
        match prevW.lookup realZoneId, curW.lookup realZoneId with
        | some prevWinter, some currWinter =>
          if prevWinter ≠ currWinter then
            let w := writeWinterSetpoint virtualZoneId currWinter
            let _success := succ w.address w.value
            [w]
          else []
        | _, _ => []
      let summerWrites :=
        match prevS.lookup realZoneId, curS.lookup realZoneId with
        | some prevSummer, some currSummer =>
          if prevSummer ≠ currSummer then
            let w := writeSummerSetpoint virtualZoneId currSummer
            let _success := succ w.address w.value
            [w]
          else []
        | _, _ => []
      winterWrites ++ summerWrites

/-- Model of `_sync_linked_setpoints`: iterate the configured zone table and
issue the winter then summer sync writes per linked real zone.  The
result is the full sequence of writes issued by the sync step. -/
def syncLinkedSetpoints (succ : ℕ → ℤ → Bool) (zonesConfig : ZonesConfig)
    (prevW prevS curW curS : List (ℕ × ℚ)) : List RegisterWrite :=
  zonesConfig.flatMap fun p => syncZone succ prevW prevS curW curS p.1 p.2

/-- Mutable coordinator state: the previous-setpoint caches
(`self._previous_winter_setpoints`, `self._previous_summer_setpoints`)
and the currently published snapshot (`self.data`; `none` before the
first successful cycle). -/
structure CoordState where
  prevWinterSetpoints : List (ℕ × ℚ)
  prevSummerSetpoints : List (ℕ × ℚ)
  data : Option Snapshot
deriving DecidableEq

/-- Result of `_async_update_data` before the framework publishes it. -/
structure UpdateOutcome where
  newPrevWinter : List (ℕ × ℚ)
  newPrevSummer : List (ℕ × ℚ)
  snapshot : Snapshot
  syncWrites : List RegisterWrite
deriving DecidableEq

/-- Model of `_async_update_data` (lines 78–143): after the sequential read
chain, if any of {temperatures, winter setpoints, summer setpoints} is
`None` raise `UpdateFailed`; otherwise run the sync step with the
current caches, set both caches to the just-read dictionaries, and
return the snapshot.  No client read raises, so the `except` wrapper
only repackages the explicit `UpdateFailed`. -/
def asyncUpdateData (zonesConfig : ZonesConfig) (succ : ℕ → ℤ → Bool)
    (prevW prevS : List (ℕ × ℚ)) (r : Readings) : Except String UpdateOutcome :=
  match r.temperatures, r.winterSetpoints, r.summerSetpoints with
  | some temps, some ws, some ss =>
    let writes := syncLinkedSetpoints succ zonesConfig prevW prevS ws ss
    .ok ⟨ws, ss, buildSnapshot temps ws ss r, writes⟩
  | _, _, _ => .error "Failed to read data from Modbus device"

/-- One poll cycle as seen through the update-coordinator framework: on
success the returned snapshot replaces `self.data` and the caches are
the just-read setpoints; on `UpdateFailed` the coordinator state —
including the previously published snapshot — is left untouched. -/
def coordinatorStep (zonesConfig : ZonesConfig) (succ : ℕ → ℤ → Bool)
    (st : CoordState) (r : Readings) : CoordState × List RegisterWrite :=
  match asyncUpdateData zonesConfig succ st.prevWinterSetpoints st.prevSummerSetpoints r with
  | .ok o => (⟨o.newPrevWinter, o.newPrevSummer, some o.snapshot⟩, o.syncWrites)
  | .error _ => (st, [])

/-! Section: Climate / binary-sensor projections (`climate.py`,
`binary_sensor.py`) -/

/-- The HVAC modes the entity reports (`HEAT` / `COOL` / `OFF`). -/
inductive HVACMode where
  | heat
  | cool
  | off
deriving DecidableEq, Repr

/-- The HVAC actions the entity reports. -/
inductive HVACAction where
  | off
  | heating
  | cooling
  | idle
deriving DecidableEq, Repr

/-- Model of `_get_season_based_hvac_mode`: `COOL` when the snapshot's season is
`True` (summer), `HEAT` when winter, unknown, or no snapshot. -/
def seasonBasedHvacMode (data : Option Snapshot) : HVACMode :=
  match data with
  | none => .heat
  | some s =>
    match s.season with
    | some true => .cool
    | _ => .heat

/-- Model of `_get_effective_zone_id_for_preset`: a real thermostat with a
linked virtual zone addresses the virtual zone in summer (season-based
mode `COOL`) and its own zone otherwise; every other configuration
always addresses its own zone. -/
def effectiveZoneIdForPreset (zoneData : ZoneCfg) (zoneId : ℕ)
    (data : Option Snapshot) : ℕ :=
  match zoneData.zoneType with
  | ZoneType.real =>
    match zoneData.linkedVirtualZone with
    | some linkedVirtual =>
      if seasonBasedHvacMode data = HVACMode.cool then linkedVirtual else zoneId
    | none => zoneId
  | _ => zoneId

/-- Model of climate.py line 205: `self.coordinator.data.get(
DATA_CALCULATED_SETPOINTS, {})`.  The snapshot dictionary built by
`_async_update_data` never contains a calculated-setpoints key (the
constant is not even defined in `const.py`), so the `.get` default `{}`
is always taken. -/
def calculatedSetpointsOfSnapshot (_s : Snapshot) : List (ℕ × ℚ) := []

/-- Model of `target_temperature` (climate.py lines 181–206): look up the zone
mode of the *effective* zone; in `Man` mode return the season-selected
manual setpoint of the zone's *own* id (`setpoints.get(self._zone_id)`),
otherwise the calculated setpoint of the effective zone.  The
`data.get(DATA_ZONE_MODES, {})` access is modelled with the empty
dictionary when that read failed. -/
def targetTemperature (zoneData : ZoneCfg) (zoneId : ℕ)
    (data : Option Snapshot) : Option ℚ :=
  match data with
  | none => none
  | some s =>
    let effectiveZoneId := effectiveZoneIdForPreset zoneData zoneId data
    let zoneModes := s.zoneModes.getD []
    if zoneModes.lookup effectiveZoneId = some ZONE_MODE_MAN then
      let setpoints :=
        if seasonBasedHvacMode data = HVACMode.cool then s.summerSetpoints
        else s.winterSetpoints
      setpoints.lookup zoneId
    else
      (calculatedSetpointsOfSnapshot s).lookup effectiveZoneId

/-- Model of `hvac_action` (climate.py lines 219–246): `OFF` for unconfigured /
virtual zones; for a real zone, `HEATING` when its own activity bit is
set, `COOLING` when (only) the linked virtual zone's bit is set, `IDLE`
otherwise.  `zone_activity.get(id, False)` is the `getD false` lookup. -/
def hvacAction (zoneData : ZoneCfg) (zoneId : ℕ)
    (data : Option Snapshot) : HVACAction :=
  match zoneData.zoneType with
  | ZoneType.unconfigured | ZoneType.virtual => .off
  | ZoneType.real =>
    match data with
    | none => .idle
    | some s =>
      let zoneActivity := s.zoneActivity.getD []
      if (zoneActivity.lookup zoneId).getD false then .heating
      else
        match zoneData.linkedVirtualZone with
        | some linkedVirtual =>
          if (zoneActivity.lookup linkedVirtual).getD false then .cooling else .idle
        | none => .idle

/-- Model of `RDZZonePumpBinarySensor.is_on` (binary_sensor.py lines 221–248):
`False` for non-real zones, `None` without a snapshot, else true iff
this zone's or the linked virtual zone's activity bit is set. -/
def zonePumpIsOn (zoneData : ZoneCfg) (zoneId : ℕ)
    (data : Option Snapshot) : Option Bool :=
  if zoneData.zoneType ≠ ZoneType.real then some false
  else
    match data with
    | none => none
    | some s =>
      let zoneActivity := s.zoneActivity.getD []
      if (zoneActivity.lookup zoneId).getD false then some true
      else
        match zoneData.linkedVirtualZone with
        | some linkedVirtual =>
          if (zoneActivity.lookup linkedVirtual).getD false then some true
          else some false
        | none => some false

/-! Section: System activation write (`modbus_client.py` lines 447–458) -/

/-- Model of `write_system_activation`: reject system ids outside 1–8 before any
connection or coil I/O; otherwise write the coil at
`COIL_SYSTEM_ACTIVATION_START + (system_id - 1)`.  The device is the
oracle `writeCoil`; the second component is the list of coil writes
performed. -/
def writeSystemActivation (writeCoil : ℤ → Bool → Bool)
    (systemId : ℤ) (isOn : Bool) : Bool × List (ℤ × Bool) :=
  if 1 ≤ systemId ∧ systemId ≤ 8 then
    let address := (COIL_SYSTEM_ACTIVATION_START : ℤ) + (systemId - 1)
    (writeCoil address isOn, [(address, isOn)])
  else
    (false, [])

/-! Section: Test fixtures used by witnesses -/

/-- Snapshot with the given season, zone modes, zone activity and
setpoint categories, everything else absent. -/
def mkTestSnapshot (season : Option Bool) (zoneModes : Option (List (ℕ × ℕ)))
    (zoneActivity : Option (List (ℕ × Bool))) (ws ss : List (ℕ × ℚ)) : Snapshot :=
  ⟨[], ws, ss, season, zoneActivity, none, none, none, zoneModes,
   none, none, none, none, none, none, none, none, none, none, none⟩

/-- Read cycle in which every single read failed. -/
def emptyReadings : Readings :=
  ⟨none, none, none, none, none, none, none, none, none, none,
   none, none, none, none, none, none, none, none, none, none⟩

/-! Section: Claim theorems -/

/-- C5: for every representable register value `x` (an unsigned 16-bit
integer), encoding the decoded value gives `x` back:
`encode(decode(x)) = x` with `decode(x) = x / 10.0` and
`encode(v) = int(v * 10)`. -/
theorem C5_decode_encode_roundtrip (x : ℕ) (_hx : x < 65536) :
    encodeTemp (decodeRegister x) = (x : ℤ) := by
  have hmul : decodeRegister x * TEMP_SCALE_FACTOR = (x : ℚ) := by
    unfold decodeRegister TEMP_SCALE_FACTOR
    field_simp
  unfold encodeTemp pyInt
  rw [hmul, if_pos (by positivity)]
  exact Int.floor_natCast x

/-- Witness for C5 at the representable register value 215 (21.5 °C). -/
theorem C5_witness : (215 : ℕ) < 65536 ∧ encodeTemp (decodeRegister 215) = (215 : ℤ) :=
  ⟨by norm_num, C5_decode_encode_roundtrip 215 (by norm_num)⟩

/-- C6: bitmask decoding of a register array produces exactly
`register_count * 16` boolean entries — the key set is
`{0, …, 16·count − 1}` — and the entry at index `N*16 + b` is bit `b`
of register `N`; the zone-oriented bitmask categories are 0-based
(`zone_id = bit`), while pump-active and system-activation use the
1-based index `bit + 1`. -/
theorem C6_bitmask_decoding :
    (∀ registers : List ℕ,
      (decodeZoneBitmask registers).length = registers.length * 16 ∧
      (decodeZoneBitmask registers).map Prod.fst = List.range (16 * registers.length)) ∧
    (∀ (registers : List ℕ) (N b : ℕ) (hN : N < registers.length), b < 16 →
      (decodeZoneBitmask registers).lookup (N * 16 + b) = some (registers[N].testBit b)) ∧
    (∀ bitmask b : ℕ, b < 8 →
      (decodePumpActive bitmask).lookup (b + 1) = some (bitmask.testBit b)) ∧
    (∀ (coils : List Bool) (i : ℕ), i < 8 →
      (decodeSystemActivation coils).lookup (i + 1) = some (coils.getD i false)) := by
  refine ⟨fun registers => ⟨?_, decodeZoneBitmask_keys registers⟩,
    decodeZoneBitmask_lookup, decodePumpActive_lookup, decodeSystemActivation_lookup⟩
  have h := congrArg List.length (decodeZoneBitmask_keys registers)
  simpa [Nat.mul_comm] using h

/-- Witness for C6 on the concrete register array `[5, 32768]`:
64-entry-per-4-registers scaled down to 2 registers, bit 2 of register
0, bit 15 of register 1, pump bit 2, system-activation coil 2. -/
theorem C6_witness :
    (decodeZoneBitmask [5, 32768]).length = 2 * 16 ∧
    (decodeZoneBitmask [5, 32768]).lookup (0 * 16 + 2) = some ((5 : ℕ).testBit 2) ∧
    (decodeZoneBitmask [5, 32768]).lookup (1 * 16 + 15) = some ((32768 : ℕ).testBit 15) ∧
    (decodePumpActive 5).lookup (2 + 1) = some ((5 : ℕ).testBit 2) ∧
    (decodeSystemActivation [true, false, true]).lookup (2 + 1) =
      some ([true, false, true].getD 2 false) :=
  ⟨(C6_bitmask_decoding.1 [5, 32768]).1,
   C6_bitmask_decoding.2.1 [5, 32768] 0 2 (by norm_num) (by norm_num),
   C6_bitmask_decoding.2.1 [5, 32768] 1 15 (by norm_num) (by norm_num),
   C6_bitmask_decoding.2.2.1 5 2 (by norm_num),
   C6_bitmask_decoding.2.2.2 [true, false, true] 2 (by norm_num)⟩

/-- C7: the current-temperature decode omits every index whose register
value is 0 (`decode_temperatures([0,100,0]) = {1: 10.0}`), while the
setpoint decode keeps zero-valued entries, producing one entry per
register including zeros. -/
theorem C7_zero_suppression :
    (decodeTemperatures [0, 100, 0] = [(1, (10 : ℚ))]) ∧
    (∀ (registers : List ℕ) (i : ℕ) (h : i < registers.length),
      (decodeTemperatures registers).lookup i =
        if registers[i] = 0 then none else some (decodeRegister registers[i])) ∧
    (∀ registers : List ℕ,
      (decodeSetpoints registers).map Prod.fst = List.range registers.length) ∧
    (∀ (registers : List ℕ) (i : ℕ) (h : i < registers.length),
      (decodeSetpoints registers).lookup i = some (decodeRegister registers[i])) := by
  refine ⟨by norm_num [decodeTemperatures, decodeTemperaturesFrom, decodeRegister,
      TEMP_SCALE_FACTOR], fun registers i h => ?_, fun registers => ?_,
    fun registers i h => ?_⟩
  · have := decodeTemperaturesFrom_lookup registers 0 i h
    simpa using this
  · rw [decodeSetpoints, decodeScaledFrom_keys, List.range_eq_range']
  · have := decodeScaledFrom_lookup registers 0 i h
    simpa using this

/-- Witness for C7: the temperature decode at the concrete array
`[0, 100, 0]` keeps only index 1, whereas the setpoint decode of the
same array keeps index 0 with value 0. -/
theorem C7_witness :
    (decodeTemperatures [0, 100, 0]).lookup 0 = none ∧
    (decodeTemperatures [0, 100, 0]).lookup 1 = some (decodeRegister 100) ∧
    (decodeSetpoints [0, 100, 0]).lookup 0 = some (decodeRegister 0) :=
  ⟨by simpa using C7_zero_suppression.2.1 [0, 100, 0] 0 (by norm_num),
   by simpa using C7_zero_suppression.2.1 [0, 100, 0] 1 (by norm_num),
   C7_zero_suppression.2.2.2 [0, 100, 0] 0 (by norm_num)⟩

/-- C8: a real zone with a linked virtual zone addresses the linked
virtual zone id in summer and its own id in winter; every other
configuration (no link, virtual, unconfigured) always addresses its
own id. -/
theorem C8_effective_zone_resolution (zoneId linkedVirtual : ℕ) (s : Snapshot) :
    (s.season = some true →
      effectiveZoneIdForPreset ⟨ZoneType.real, some linkedVirtual⟩ zoneId (some s) =
        linkedVirtual) ∧
    (s.season = some false →
      effectiveZoneIdForPreset ⟨ZoneType.real, some linkedVirtual⟩ zoneId (some s) =
        zoneId) ∧
    (∀ (zoneData : ZoneCfg) (zid : ℕ) (data : Option Snapshot),
      zoneData.zoneType ≠ ZoneType.real ∨ zoneData.linkedVirtualZone = none →
      effectiveZoneIdForPreset zoneData zid data = zid) := by
  refine ⟨fun hsummer => ?_, fun hwinter => ?_, fun zoneData zid data hother => ?_⟩
  · simp [effectiveZoneIdForPreset, seasonBasedHvacMode, hsummer]
  · simp [effectiveZoneIdForPreset, seasonBasedHvacMode, hwinter]
  · obtain ⟨zt, lv⟩ := zoneData
    rcases hother with h | h
    · cases zt <;> simp_all [effectiveZoneIdForPreset]
    · cases zt <;> simp_all [effectiveZoneIdForPreset]

/-- Witness for C8: real zone 3 linked to virtual zone 50 — summer
resolves to 50, winter resolves to 3, and a virtual zone resolves to
itself. -/
theorem C8_witness :
    (mkTestSnapshot (some true) none none [] []).season = some true ∧
    effectiveZoneIdForPreset ⟨ZoneType.real, some 50⟩ 3
      (some (mkTestSnapshot (some true) none none [] [])) = 50 ∧
    effectiveZoneIdForPreset ⟨ZoneType.real, some 50⟩ 3
      (some (mkTestSnapshot (some false) none none [] [])) = 3 ∧
    effectiveZoneIdForPreset ⟨ZoneType.virtual, none⟩ 50
      (some (mkTestSnapshot (some true) none none [] [])) = 50 :=
  ⟨rfl,
   (C8_effective_zone_resolution 3 50 (mkTestSnapshot (some true) none none [] [])).1 rfl,
   (C8_effective_zone_resolution 3 50 (mkTestSnapshot (some false) none none [] [])).2.1 rfl,
   (C8_effective_zone_resolution 3 50 (mkTestSnapshot (some true) none none [] [])).2.2
     ⟨ZoneType.virtual, none⟩ 50 _ (Or.inl (by simp))⟩

/-- C9: a real zone with a linked virtual zone derives its activity as
the OR of its own bit and the linked virtual zone's bit, for every
season; and a zone's direct entry in the decoded activity bitmask
equals its own bit. -/
theorem C9_activity_or_rule (zoneId linkedVirtual : ℕ) (za : List (ℕ × Bool))
    (s : Snapshot) (hza : s.zoneActivity = some za) :
    (zonePumpIsOn ⟨ZoneType.real, some linkedVirtual⟩ zoneId (some s) =
      some (((za.lookup zoneId).getD false) || ((za.lookup linkedVirtual).getD false))) ∧
    ((hvacAction ⟨ZoneType.real, some linkedVirtual⟩ zoneId (some s) = HVACAction.heating ∨
      hvacAction ⟨ZoneType.real, some linkedVirtual⟩ zoneId (some s) = HVACAction.cooling) ↔
      ((za.lookup zoneId).getD false = true ∨
       (za.lookup linkedVirtual).getD false = true)) ∧
    (∀ seasonVal : Option Bool,
      zonePumpIsOn ⟨ZoneType.real, some linkedVirtual⟩ zoneId
          (some { s with season := seasonVal }) =
        zonePumpIsOn ⟨ZoneType.real, some linkedVirtual⟩ zoneId (some s) ∧
      hvacAction ⟨ZoneType.real, some linkedVirtual⟩ zoneId
          (some { s with season := seasonVal }) =
        hvacAction ⟨ZoneType.real, some linkedVirtual⟩ zoneId (some s)) ∧
    (∀ (registers : List ℕ) (N b : ℕ) (hN : N < registers.length), b < 16 →
      ((decodeZoneBitmask registers).lookup (N * 16 + b)).getD false =
        registers[N].testBit b) := by
  refine ⟨?_, ?_, fun seasonVal => ⟨rfl, rfl⟩, fun registers N b hN hb => ?_⟩
  · cases h1 : (za.lookup zoneId).getD false <;>
      cases h2 : (za.lookup linkedVirtual).getD false <;>
      simp [zonePumpIsOn, hza, h1, h2]
  · cases h1 : (za.lookup zoneId).getD false <;>
      cases h2 : (za.lookup linkedVirtual).getD false <;>
      simp [hvacAction, hza, h1, h2]
  · rw [decodeZoneBitmask_lookup registers N b hN hb]
    rfl

/-- Witness for C9: activity bitmask with only bit 3 of register 0 set
(zone 3 active, virtual zone 50 idle), real zone 3 linked to virtual
zone 50 — the derived sensor is on, and the direct bitmask entry of
zone 3 is its own bit. -/
theorem C9_witness :
    zonePumpIsOn ⟨ZoneType.real, some 50⟩ 3
        (some (mkTestSnapshot (some false) none (some [(3, true)]) [] [])) =
      some ((((([((3 : ℕ), true)] : List (ℕ × Bool)).lookup 3).getD false)) ||
        ((([((3 : ℕ), true)] : List (ℕ × Bool)).lookup 50).getD false)) ∧
    ((decodeZoneBitmask [8]).lookup (0 * 16 + 3)).getD false = (8 : ℕ).testBit 3 :=
  ⟨(C9_activity_or_rule 3 50 [(3, true)]
      (mkTestSnapshot (some false) none (some [(3, true)]) [] []) rfl).1,
   (C9_activity_or_rule 3 50 [(3, true)]
      (mkTestSnapshot (some false) none (some [(3, true)]) [] []) rfl).2.2.2
     [8] 0 3 (by norm_num) (by norm_num)⟩

/-- C10: `write_system_activation` returns `False` and performs no coil
write (hence attempts no connection) for any system id outside 1–8; for
an id within 1–8 it writes the coil at
`COIL_SYSTEM_ACTIVATION_START + (system_id - 1)`. -/
theorem C10_system_activation_guard (writeCoil : ℤ → Bool → Bool)
    (systemId : ℤ) (isOn : Bool) :
    (¬(1 ≤ systemId ∧ systemId ≤ 8) →
      writeSystemActivation writeCoil systemId isOn = (false, [])) ∧
    (1 ≤ systemId ∧ systemId ≤ 8 →
      writeSystemActivation writeCoil systemId isOn =
        (writeCoil ((COIL_SYSTEM_ACTIVATION_START : ℤ) + (systemId - 1)) isOn,
         [((COIL_SYSTEM_ACTIVATION_START : ℤ) + (systemId - 1), isOn)])) := by
  constructor
  · intro h
    rw [writeSystemActivation, if_neg h]
  · intro h
    rw [writeSystemActivation, if_pos h]

/-- Witness for C10: system id 9 is rejected with no write, system id 3
writes coil 102. -/
theorem C10_witness :
    writeSystemActivation (fun _ _ => true) 9 true = (false, []) ∧
    writeSystemActivation (fun _ _ => true) 3 true =
      ((fun (_ : ℤ) (_ : Bool) => true) ((COIL_SYSTEM_ACTIVATION_START : ℤ) + (3 - 1)) true,
       [((COIL_SYSTEM_ACTIVATION_START : ℤ) + ((3 : ℤ) - 1), true)]) :=
  ⟨(C10_system_activation_guard (fun _ _ => true) 9 true).1 (by norm_num),
   (C10_system_activation_guard (fun _ _ => true) 3 true).2 (by norm_num)⟩

/-! Section: Poll-cycle lemmas shared by the coordinator claims -/

/-- A cycle whose three mandatory reads succeeded publishes the built
snapshot, sets both caches to the just-read setpoints and issues the
sync writes computed from the old caches. -/
theorem coordinatorStep_success (zonesConfig : ZonesConfig) (succ : ℕ → ℤ → Bool)
    (st : CoordState) (r : Readings) (temps ws ss : List (ℕ × ℚ))
    (h1 : r.temperatures = some temps) (h2 : r.winterSetpoints = some ws)
    (h3 : r.summerSetpoints = some ss) :
    coordinatorStep zonesConfig succ st r =
      (⟨ws, ss, some (buildSnapshot temps ws ss r)⟩,
       syncLinkedSetpoints succ zonesConfig
         st.prevWinterSetpoints st.prevSummerSetpoints ws ss) := by
  unfold coordinatorStep asyncUpdateData
  rw [h1, h2, h3]

/-- A cycle with a failed mandatory read raises `UpdateFailed` and
leaves the coordinator state untouched. -/
theorem coordinatorStep_failure (zonesConfig : ZonesConfig) (succ : ℕ → ℤ → Bool)
    (st : CoordState) (r : Readings)
    (hfail : r.temperatures = none ∨ r.winterSetpoints = none ∨
      r.summerSetpoints = none) :
    asyncUpdateData zonesConfig succ st.prevWinterSetpoints st.prevSummerSetpoints r =
      .error "Failed to read data from Modbus device" ∧
    coordinatorStep zonesConfig succ st r = (st, []) := by
  have herr : asyncUpdateData zonesConfig succ
      st.prevWinterSetpoints st.prevSummerSetpoints r =
      .error "Failed to read data from Modbus device" := by
    unfold asyncUpdateData
    rcases ht : r.temperatures with _ | temps <;>
      rcases hw : r.winterSetpoints with _ | ws <;>
      rcases hs : r.summerSetpoints with _ | ss <;>
      simp_all
  refine ⟨herr, ?_⟩
  unfold coordinatorStep
  rw [herr]

/-- A zone contributes no sync write when both previous-setpoint caches
are empty. -/
theorem syncZone_empty_cache (succ : ℕ → ℤ → Bool) (curW curS : List (ℕ × ℚ))
    (realZoneId : ℕ) (zoneData : ZoneCfg) :
    syncZone succ [] [] curW curS realZoneId zoneData = [] := by
  obtain ⟨zt, lv⟩ := zoneData
  cases zt <;> cases lv <;> simp [syncZone, List.lookup]

/-! Section: Coordinator claim theorems -/

/-- C4: if any of the three mandatory categories (temperatures, winter
setpoints, summer setpoints) is unreadable, the cycle fails with
`UpdateFailed`, every other read of the cycle is discarded (no write is
issued, nothing is stored) and the previously published snapshot and
caches are unchanged. -/
theorem C4_mandatory_failure_aborts (zonesConfig : ZonesConfig)
    (succ : ℕ → ℤ → Bool) (st : CoordState) (r : Readings)
    (hfail : r.temperatures = none ∨ r.winterSetpoints = none ∨
      r.summerSetpoints = none) :
    asyncUpdateData zonesConfig succ st.prevWinterSetpoints st.prevSummerSetpoints r =
      .error "Failed to read data from Modbus device" ∧
    coordinatorStep zonesConfig succ st r = (st, []) :=
  coordinatorStep_failure zonesConfig succ st r hfail

/-- Witness for C4: a cycle whose temperature read failed, starting
from a state with a published snapshot, leaves that state unchanged. -/
theorem C4_witness :
    coordinatorStep [] (fun _ _ => true)
      ⟨[(5, 20)], [], some (mkTestSnapshot (some true) none none [] [])⟩
      { emptyReadings with winterSetpoints := some [], summerSetpoints := some [] } =
      (⟨[(5, 20)], [], some (mkTestSnapshot (some true) none none [] [])⟩, []) :=
  (C4_mandatory_failure_aborts [] (fun _ _ => true)
    ⟨[(5, 20)], [], some (mkTestSnapshot (some true) none none [] [])⟩
    { emptyReadings with winterSetpoints := some [], summerSetpoints := some [] }
    (Or.inl rfl)).2

/-- Read cycle in which the three mandatory categories succeeded but
the season (and every remaining non-mandatory) read failed. -/
def seasonFailedReadings : Readings :=
  { emptyReadings with
      temperatures := some [(0, (21 : ℚ))]
      winterSetpoints := some [(0, (20 : ℚ))]
      summerSetpoints := some [(0, (25 : ℚ))] }

/-- Counterexample to C1 as stated: in a cycle where the season read
fails (returns `None`) while the mandatory categories succeed, the
cycle does NOT abort — it replaces the previous snapshot with one whose
season category is missing (`none`). -/
theorem C1_counterexample :
    seasonFailedReadings.season = none ∧
    (coordinatorStep [] (fun _ _ => true) ⟨[], [], none⟩ seasonFailedReadings).1.data =
      some (buildSnapshot [(0, (21 : ℚ))] [(0, (20 : ℚ))] [(0, (25 : ℚ))]
        seasonFailedReadings) ∧
    (buildSnapshot [(0, (21 : ℚ))] [(0, (20 : ℚ))] [(0, (25 : ℚ))]
        seasonFailedReadings).season = none := by
  exact ⟨rfl, rfl, rfl⟩

/-- C1 (amended): a poll cycle aborts — leaving the previous snapshot
in place — exactly when one of the three mandatory categories fails;
the failure of any non-mandatory read does not abort the cycle, which
instead publishes a snapshot carrying `none` for that category. -/
theorem C1_cycle_population (zonesConfig : ZonesConfig) (succ : ℕ → ℤ → Bool)
    (st : CoordState) (r : Readings) :
    (∀ temps ws ss, r.temperatures = some temps → r.winterSetpoints = some ws →
      r.summerSetpoints = some ss →
      coordinatorStep zonesConfig succ st r =
        (⟨ws, ss, some (buildSnapshot temps ws ss r)⟩,
         syncLinkedSetpoints succ zonesConfig
           st.prevWinterSetpoints st.prevSummerSetpoints ws ss)) ∧
    ((r.temperatures = none ∨ r.winterSetpoints = none ∨ r.summerSetpoints = none) →
      coordinatorStep zonesConfig succ st r = (st, [])) :=
  ⟨fun temps ws ss h1 h2 h3 =>
    coordinatorStep_success zonesConfig succ st r temps ws ss h1 h2 h3,
   fun hfail => (coordinatorStep_failure zonesConfig succ st r hfail).2⟩

/-- Witness for C1 (amended): the success branch at the cycle whose
season read failed, and the abort branch at the all-failed cycle. -/
theorem C1_witness :
    coordinatorStep [] (fun _ _ => true) ⟨[], [], none⟩ seasonFailedReadings =
      (⟨[(0, (20 : ℚ))], [(0, (25 : ℚ))],
        some (buildSnapshot [(0, (21 : ℚ))] [(0, (20 : ℚ))] [(0, (25 : ℚ))]
          seasonFailedReadings)⟩,
       syncLinkedSetpoints (fun _ _ => true) [] [] [] [(0, (20 : ℚ))] [(0, (25 : ℚ))]) ∧
    coordinatorStep [] (fun _ _ => true) ⟨[], [], none⟩ emptyReadings =
      (⟨[], [], none⟩, []) :=
  ⟨(C1_cycle_population [] (fun _ _ => true) ⟨[], [], none⟩ seasonFailedReadings).1
      [(0, (21 : ℚ))] [(0, (20 : ℚ))] [(0, (25 : ℚ))] rfl rfl rfl,
   (C1_cycle_population [] (fun _ _ => true) ⟨[], [], none⟩ emptyReadings).2
      (Or.inl rfl)⟩

/-- C3: for a real zone `z` linked to virtual zone `v`, a winter
setpoint that changed against a known cached value triggers exactly one
write — of the new value, to the virtual zone's winter setpoint
register; the caches are set to the just-read dictionaries regardless
of the outcome of any sync write (the oracle `succ` is arbitrary); and
with empty caches (first cycle after startup) no sync write is
issued. -/
theorem C3_sync_propagation (succ : ℕ → ℤ → Bool) (z v : ℕ)
    (prevW prevS curW curS : List (ℕ × ℚ)) (p c : ℚ)
    (hprev : prevW.lookup z = some p) (hcur : curW.lookup z = some c)
    (hne : p ≠ c) (hsummer : prevS.lookup z = none) :
    (syncLinkedSetpoints succ [(z, ⟨ZoneType.real, some v⟩)] prevW prevS curW curS =
      [writeWinterSetpoint v c]) ∧
    (∀ (zonesConfig : ZonesConfig) (cw cs : List (ℕ × ℚ)),
      syncLinkedSetpoints succ zonesConfig [] [] cw cs = []) ∧
    (∀ (zonesConfig : ZonesConfig) (st : CoordState) (r : Readings)
      (temps ws ss : List (ℕ × ℚ)),
      r.temperatures = some temps → r.winterSetpoints = some ws →
      r.summerSetpoints = some ss →
      (coordinatorStep zonesConfig succ st r).1.prevWinterSetpoints = ws ∧
      (coordinatorStep zonesConfig succ st r).1.prevSummerSetpoints = ss) := by
  refine ⟨?_, fun zonesConfig cw cs => ?_, fun zonesConfig st r temps ws ss h1 h2 h3 => ?_⟩
  · simp only [syncLinkedSetpoints, List.flatMap_cons, List.flatMap_nil,
      List.append_nil, syncZone, hprev, hcur, hsummer]
    simp [hne]
  · induction zonesConfig with
    | nil => rfl
    | cons zc rest ih =>
      simp only [syncLinkedSetpoints, List.flatMap_cons] at ih ⊢
      rw [syncZone_empty_cache, ih]
      rfl
  · rw [coordinatorStep_success zonesConfig succ st r temps ws ss h1 h2 h3]
    exact ⟨rfl, rfl⟩

/-- Witness for C3, the spec's own example: real zone 5 linked to
virtual zone 40, previous winter cache `{5: 20.0}`, new read
`{5: 21.0}` — exactly one write of 21.0 (encoded 210) to zone 40's
winter setpoint register 340, for a failing device oracle. -/
theorem C3_witness :
    syncLinkedSetpoints (fun _ _ => false) [(5, ⟨ZoneType.real, some 40⟩)]
      [(5, (20 : ℚ))] [] [(5, (21 : ℚ))] [] = [writeWinterSetpoint 40 21] :=
  (C3_sync_propagation (fun _ _ => false) 5 40 [(5, 20)] [] [(5, 21)] [] 20 21
    (by decide) (by decide) (by norm_num) (by decide)).1

/-- Snapshot for the C2 analysis: summer season, real zone 3 linked to
virtual zone 50, the effective zone 50 in `Man` mode, and summer
setpoints 25.0 for zone 3 and 26.0 for zone 50. -/
def c2Snapshot : Snapshot :=
  mkTestSnapshot (some true) (some [(50, ZONE_MODE_MAN)]) none
    [(3, (20 : ℚ)), (50, (19 : ℚ))] [(3, (25 : ℚ)), (50, (26 : ℚ))]

/-- Counterexample to C2 as stated: in `Man` mode the target
temperature is the manual setpoint of the zone's *own* id (zone 3,
25.0), not that of the effective zone (zone 50, 26.0). -/
theorem C2_counterexample :
    targetTemperature ⟨ZoneType.real, some 50⟩ 3 (some c2Snapshot) = some 25 ∧
    c2Snapshot.summerSetpoints.lookup
      (effectiveZoneIdForPreset ⟨ZoneType.real, some 50⟩ 3 (some c2Snapshot)) =
        some 26 ∧
    (some (25 : ℚ)) ≠ (some (26 : ℚ)) := by
  refine ⟨?_, ?_, by norm_num⟩ <;>
    simp [targetTemperature, effectiveZoneIdForPreset, seasonBasedHvacMode,
      c2Snapshot, mkTestSnapshot, ZONE_MODE_MAN, List.lookup]

/-- C2 (amended): with the zone mode looked up at the *effective* zone,
`Man` mode returns the season-selected manual setpoint of the zone's
*own* id; any other mode reads the calculated-setpoints category of the
snapshot at the effective zone, and since the published snapshot never
contains that category the result is `None`. -/
theorem C2_target_temperature (zoneData : ZoneCfg) (zoneId : ℕ) (s : Snapshot)
    (zm : List (ℕ × ℕ)) (hzm : s.zoneModes = some zm) :
    (zm.lookup (effectiveZoneIdForPreset zoneData zoneId (some s)) = some ZONE_MODE_MAN →
      targetTemperature zoneData zoneId (some s) =
        (if seasonBasedHvacMode (some s) = HVACMode.cool then s.summerSetpoints
         else s.winterSetpoints).lookup zoneId) ∧
    (zm.lookup (effectiveZoneIdForPreset zoneData zoneId (some s)) ≠ some ZONE_MODE_MAN →
      targetTemperature zoneData zoneId (some s) = none) := by
  constructor
  · intro hman
    simp only [targetTemperature, hzm, Option.getD_some]
    rw [if_pos hman]
  · intro hother
    simp only [targetTemperature, hzm, Option.getD_some]
    rw [if_neg hother]
    rfl

/-- Witness for C2 (amended): at `c2Snapshot` the `Man` branch returns
the own-zone summer setpoint, and with the effective zone in `Pgm` mode
the result is `None`. -/
theorem C2_witness :
    targetTemperature ⟨ZoneType.real, some 50⟩ 3 (some c2Snapshot) =
      (if seasonBasedHvacMode (some c2Snapshot) = HVACMode.cool
        then c2Snapshot.summerSetpoints else c2Snapshot.winterSetpoints).lookup 3 ∧
    targetTemperature ⟨ZoneType.real, some 50⟩ 3
      (some (mkTestSnapshot (some true) (some [(50, ZONE_MODE_PGM)]) none [] [])) =
      none :=
  ⟨(C2_target_temperature ⟨ZoneType.real, some 50⟩ 3 c2Snapshot
      [(50, ZONE_MODE_MAN)] rfl).1 (by decide),
   (C2_target_temperature ⟨ZoneType.real, some 50⟩ 3
      (mkTestSnapshot (some true) (some [(50, ZONE_MODE_PGM)]) none [] [])
      [(50, ZONE_MODE_PGM)] rfl).2 (by decide)⟩

end RDZ
